/-
Verification of the resilient request core of the data_collector repository
(module data_collector/utilities/request.py) against its natural-language
specification.

The Python module is shallowly embedded below.  Conventions of the embedding:

* Machine time: `datetime.now()` is modeled by explicit `Nat` timestamps
  supplied to each operation (the value the clock returned at that point).
  Inside a single request the client model threads a strictly increasing
  tick counter, idealizing a monotonic clock; the journal-level operations
  take the raw timestamp so that clock collisions can be analyzed.
* Randomness: `random.randint(0, n-1)` is modeled by `randint0 entropy n`
  where `entropy` is a draw from an injected entropy stream; mapping a
  uniform draw through `% n` yields the uniform range `[0, n)`.
* Python `dict` is modeled by an insertion-ordered association list with
  dict update semantics (updating an existing key keeps its position).
* Latencies are exact rationals (`ℚ`); Python `int(x)` truncation and
  `round(x)` banker's rounding are modeled explicitly (`pyInt`, `pyRound`).
* `httpx` exceptions are modeled by the inductive `TransportExn` carrying
  the classes the code's `isinstance` chain distinguishes; responses by
  `HResponse` (status code plus an identity tag).
-/

import Mathlib

set_option linter.unusedVariables false
set_option allowUnsafeReducibility true
attribute [semireducible] Rat.add Rat.mul Rat.sub Rat.div Rat.neg Rat.inv

namespace DataCollector

/-! ## Error taxonomy (`RequestErrorType`) -/

/-- Python `RequestErrorType` from request.py: closed classification of failures. -/
inductive ErrKind where
  | timeout
  | proxy
  | badStatus
  | redirect
  | request
  | other
deriving DecidableEq, Repr

/-! ## Python dict as insertion-ordered association list

A dict is a key-unique association list in insertion order.  Writing an
existing key replaces its value in place (keeping its position, as
CPython does); writing a new key appends. -/

/-- Python dict membership (`k in m`). -/
def keyMem {κ β : Type} [DecidableEq κ] (m : List (κ × β)) (k : κ) : Bool :=
  m.any (fun p => p.1 = k)

/-- Python dict write `m[k] = v`. -/
def dictSet {κ β : Type} [DecidableEq κ] :
    List (κ × β) → κ → β → List (κ × β)
  | [], k, v => [(k, v)]
  | (a, b) :: tl, k, v =>
      if a = k then (k, v) :: tl else (a, b) :: dictSet tl k v

/-- Python `m.get(k)` returning `None` when missing. -/
def dictFind {κ β : Type} [DecidableEq κ] (m : List (κ × β)) (k : κ) :
    Option β :=
  (m.find? (fun p => p.1 = k)).map Prod.snd

/-- Python `m.get(k, d)`. -/
def dictGetD {κ β : Type} [DecidableEq κ] (m : List (κ × β)) (k : κ)
    (d : β) : β :=
  (dictFind m k).getD d

/-- Python `m.pop(k, None)` (the removal part). -/
def dictPop {κ β : Type} [DecidableEq κ] (m : List (κ × β)) (k : κ) :
    List (κ × β) :=
  m.filter (fun p => ¬ p.1 = k)

/-! ## Exception journal (`ExceptionDescriptor`) -/

/-- One journal record: the value dict `{"type", "message", "url"}`. -/
structure JEntry where
  etype : ErrKind
  msg : String
  url : String
deriving DecidableEq, Repr

/-- Python `ExceptionDescriptor`: `self.errors` is a Python dict keyed by the
`datetime.now()` value at record time. -/
structure ExceptionDescriptor where
  errors : List (Nat × JEntry)
deriving DecidableEq, Repr

namespace ExceptionDescriptor

/-- Python `add_error`: `self.errors[datetime.now()] = {...}`; `t` is the value
the clock returned for this call. -/
def add_error (ed : ExceptionDescriptor) (t : Nat) (etype : ErrKind)
    (msg : String) (url : String) : ExceptionDescriptor :=
  ⟨dictSet ed.errors t ⟨etype, msg, url⟩⟩

/-- Python `get_last_error`: `next(reversed(self.errors.values()), None)`. -/
def get_last_error (ed : ExceptionDescriptor) : Option JEntry :=
  (ed.errors.getLast?).map Prod.snd

/-- Python `get_errors_by_type`. -/
def get_errors_by_type (ed : ExceptionDescriptor) (etype : ErrKind) :
    List JEntry :=
  (ed.errors.map Prod.snd).filter (fun e => e.etype = etype)

/-- Python `has_errors_after`: any key strictly greater than the timestamp. -/
def has_errors_after (ed : ExceptionDescriptor) (timestamp : Nat) : Bool :=
  ed.errors.any (fun p => timestamp < p.1)

/-- Python `clear`. -/
def clear (_ed : ExceptionDescriptor) : ExceptionDescriptor := ⟨[]⟩

end ExceptionDescriptor

/-! ## Metrics collector (`RequestMetrics`) -/

/-- Python `RequestMetrics.RESERVOIR_SIZE`. -/
def RESERVOIR_SIZE : Nat := 1000

/-- Model of `random.randint(0, n-1)`: a uniform entropy draw mapped into
the inclusive range `[0, n-1]`, i.e. the half-open `[0, n)`. -/
def randint0 (entropy n : Nat) : Nat := entropy % n

/-- One reservoir update of `record_request` (Algorithm R):
if occupancy is below capacity append, else draw `j` uniformly from
`[0, n)` — `n` the persistent per-key total-seen counter — and overwrite
index `j` only when `j < RESERVOIR_SIZE`. -/
def reservoirStep (res : List ℚ) (n : Nat) (v : ℚ) (entropy : Nat) :
    List ℚ :=
  if res.length < RESERVOIR_SIZE then res ++ [v]
  else
    let j := randint0 entropy n
    if j < RESERVOIR_SIZE then res.set j v else res

/-- Python `_ProxyStats`: `{"count": int, "success": int, "timings": list}`. -/
structure ProxyStats where
  count : Nat
  success : Nat
  timings : List ℚ
deriving DecidableEq, Repr

/-- Python `_TargetFailure`: `{"failures": int, "proxies": set}` (the set is
modeled as a duplicate-free list). -/
structure TargetFailure where
  failures : Nat
  proxies : List String
deriving DecidableEq, Repr

/-- Python `set.add`. -/
def psetAdd (s : List String) (x : String) : List String :=
  if s.contains x then s else s ++ [x]

/-- Python `RequestMetrics` state (the lock is a no-op in this sequential model). -/
structure RequestMetrics where
  max_target_failures : Nat
  min_distinct_proxies : Nat
  request_count : Nat
  timeout_err : Nat
  proxy_err : Nat
  bad_status_code_err : Nat
  redirect_err : Nat
  request_err : Nat
  other_err : Nat
  domain_timings : List (String × List ℚ)
  domain_request_counts : List (String × Nat)
  domain_status_codes : List (String × List (Nat × Nat))
  proxy_stats : List (String × ProxyStats)
  target_failures : List (String × TargetFailure)
deriving DecidableEq, Repr

namespace RequestMetrics

/-- Python `RequestMetrics(max_target_failures, min_distinct_proxies)`. -/
def init (max_target_failures : Nat := 3) (min_distinct_proxies : Nat := 2) :
    RequestMetrics :=
  ⟨max_target_failures, min_distinct_proxies, 0, 0, 0, 0, 0, 0, 0,
   [], [], [], [], []⟩

/-- The named per-kind error counter (`getattr(self, f"{error_type}_err")`). -/
def kindCounter (m : RequestMetrics) : ErrKind → Nat
  | .timeout => m.timeout_err
  | .proxy => m.proxy_err
  | .badStatus => m.bad_status_code_err
  | .redirect => m.redirect_err
  | .request => m.request_err
  | .other => m.other_err

/-- Python `setattr(self, f"{error_type}_err", ... + 1)` for the six kinds. -/
def bumpKind (m : RequestMetrics) : ErrKind → RequestMetrics
  | .timeout => { m with timeout_err := m.timeout_err + 1 }
  | .proxy => { m with proxy_err := m.proxy_err + 1 }
  | .badStatus => { m with bad_status_code_err := m.bad_status_code_err + 1 }
  | .redirect => { m with redirect_err := m.redirect_err + 1 }
  | .request => { m with request_err := m.request_err + 1 }
  | .other => { m with other_err := m.other_err + 1 }

/-- Python `_record_target_failure(domain, proxy_key)`: insert `{0, {}}` when the
domain is new, then bump the failure count and add the proxy key. -/
def record_target_failure (m : RequestMetrics) (domain proxy_key : String) :
    RequestMetrics :=
  let entry := dictGetD m.target_failures domain ⟨0, []⟩
  let bumped : TargetFailure := ⟨entry.failures + 1, psetAdd entry.proxies proxy_key⟩
  { m with target_failures := dictSet m.target_failures domain bumped }

/-- Python `record_request(domain, proxy, status_code, response_time_ms)`;
`ed` and `ep` are the entropy draws consumed by the domain and proxy
reservoirs (only read when the respective reservoir is full). -/
def record_request (m : RequestMetrics) (domain : String)
    (proxy : Option String) (status_code : Nat) (response_time_ms : ℚ)
    (ed ep : Nat) : RequestMetrics :=
  let m := { m with request_count := m.request_count + 1 }
  -- domain timing, reservoir sampling (Algorithm R)
  let cnt := dictGetD m.domain_request_counts domain 0 + 1
  let res := dictGetD m.domain_timings domain []
  let m := { m with
    domain_request_counts := dictSet m.domain_request_counts domain cnt,
    domain_timings :=
      dictSet m.domain_timings domain (reservoirStep res cnt response_time_ms ed) }
  -- domain status codes
  let codes := dictGetD m.domain_status_codes domain []
  let m := { m with
    domain_status_codes :=
      dictSet m.domain_status_codes domain
        (dictSet codes status_code (dictGetD codes status_code 0 + 1)) }
  -- per-proxy stats
  let proxy_key := proxy.getD "direct"
  let pstat := dictGetD m.proxy_stats proxy_key ⟨0, 0, []⟩
  let pcnt := pstat.count + 1
  let psucc := if 200 ≤ status_code ∧ status_code < 300
               then pstat.success + 1 else pstat.success
  let m := { m with
    proxy_stats :=
      dictSet m.proxy_stats proxy_key
        ⟨pcnt, psucc, reservoirStep pstat.timings pcnt response_time_ms ep⟩ }
  -- circuit breaker: reset on success (2xx), else bump
  let m := if 200 ≤ status_code ∧ status_code < 300 then
      { m with target_failures := dictPop m.target_failures domain }
    else record_target_failure m domain proxy_key
  -- bad_status_code_err for non-2xx
  if 200 ≤ status_code ∧ status_code < 300 then m
  else { m with bad_status_code_err := m.bad_status_code_err + 1 }

/-- Python `record_error(domain, proxy, error_type)`: bump the named kind counter
and the circuit breaker; `request_count` is not touched by this code path. -/
def record_error (m : RequestMetrics) (domain : String)
    (proxy : Option String) (error_type : ErrKind) : RequestMetrics :=
  let proxy_key := proxy.getD "direct"
  record_target_failure (bumpKind m error_type) domain proxy_key

end RequestMetrics

/-! ## URL and string helpers (`urllib.parse`, substring tests)

Implemented over `List Char` by structural recursion so that every
theorem witness can be evaluated by the kernel. -/

/-- Does `cs` start with `pat`? -/
def charsStartsWith : List Char → List Char → Bool
  | _, [] => true
  | [], _ :: _ => false
  | c :: cs, p :: ps => c == p && charsStartsWith cs ps

/-- Substring occurrence test over character lists. -/
def charsContainsSub (pat : List Char) : List Char → Bool
  | [] => charsStartsWith [] pat
  | c :: cs => charsStartsWith (c :: cs) pat || charsContainsSub pat cs

/-- Python substring test `pat in s`. -/
def strContains (s pat : String) : Bool :=
  charsContainsSub pat.toList s.toList

/-- Split at the first occurrence of `pat`, returning the parts before
and after it. -/
def breakOnSub (pat : List Char) : List Char → Option (List Char × List Char)
  | [] => none
  | c :: cs =>
      if charsStartsWith (c :: cs) pat then some ([], (c :: cs).drop pat.length)
      else
        match breakOnSub pat cs with
        | some (pre, post) => some (c :: pre, post)
        | none => none

/-- Python `s.lower()`. -/
def strLower (s : String) : String :=
  String.mk (s.toList.map Char.toLower)

/-- Characters that may appear in a URL scheme after the first letter. -/
def isSchemeChar (c : Char) : Bool :=
  c.isAlphanum || c == '+' || c == '-' || c == '.'

/-- The netloc ends at the first of `/`, `?`, `#`. -/
def takeNetloc (cs : List Char) : List Char :=
  cs.takeWhile (fun c => !(c == '/' || c == '?' || c == '#'))

/-- Python `urlparse(url).netloc`: the authority component, present only right
after a well-formed `scheme:` followed by `//`, or at the start of a
scheme-relative `//...` reference. -/
def netlocOf (url : String) : String :=
  let cs := url.toList
  match breakOnSub [':', '/', '/'] cs with
  | some (scheme, rest) =>
      if (scheme.headD '0').isAlpha && scheme.all isSchemeChar then
        String.mk (takeNetloc rest)
      else if charsStartsWith cs ['/', '/'] then
        String.mk (takeNetloc (cs.drop 2))
      else ""
  | none =>
      if charsStartsWith cs ['/', '/'] then
        String.mk (takeNetloc (cs.drop 2))
      else ""

/-! ## Exact-number models of Python `int()` and `round()` -/

/-- Python `int(q)`: truncation toward zero. -/
def pyInt (q : ℚ) : ℤ :=
  if 0 ≤ q then ⌊q⌋ else -⌊-q⌋

/-- Python `round(q)`: round half to even (banker's rounding). -/
def pyRound (q : ℚ) : ℤ :=
  let f := ⌊q⌋
  let r := q - (f : ℚ)
  if r < 1 / 2 then f
  else if 1 / 2 < r then f + 1
  else if f % 2 = 0 then f else f + 1

namespace RequestMetrics

/-- Python `is_target_unhealthy(url)`: circuit-breaker check on the URL's domain. -/
def is_target_unhealthy (m : RequestMetrics) (url : String) : Bool :=
  let domain := netlocOf url
  match dictFind m.target_failures domain with
  | none => false
  | some entry =>
      m.max_target_failures ≤ entry.failures
        ∧ m.min_distinct_proxies ≤ entry.proxies.length

/-- Python `_percentile(data, pct)`: sort ascending, index `int(len * pct)`
clamped to `len - 1`, return the value at that index rounded. -/
def percentile (data : List ℚ) (pct : ℚ) : ℤ :=
  if data = [] then 0
  else
    let sorted_data := data.insertionSort (· ≤ ·)
    let idx := min (pyInt ((data.length : ℚ) * pct)).toNat (data.length - 1)
    pyRound (sorted_data.getD idx 0)

/-- The spec's words for the percentile ("the element at index
`floor(len * pct)` of the ascending sort, clamped to `len-1`"), stated
as the selected element itself, for comparison with `percentile`. -/
def specPercentileElt (data : List ℚ) (pct : ℚ) : ℚ :=
  let sorted_data := data.insertionSort (· ≤ ·)
  let idx := min (Int.toNat ⌊(data.length : ℚ) * pct⌋) (data.length - 1)
  sorted_data.getD idx 0

/-- The `timing` record computed by `_compute_timing`. -/
structure Timing where
  avg_ms : ℤ
  p50_ms : ℤ
  p95_ms : ℤ
  p99_ms : ℤ
deriving DecidableEq, Repr

/-- Python `_compute_timing(timings)`. -/
def compute_timing (timings : List ℚ) : Timing :=
  if timings = [] then ⟨0, 0, 0, 0⟩
  else
    ⟨pyRound (timings.sum / (timings.length : ℚ)),
     percentile timings (50 / 100),
     percentile timings (95 / 100),
     percentile timings (99 / 100)⟩

/-- The timing block of `log_stats`: `_compute_timing` over the
concatenation of every domain reservoir, in dict insertion order. -/
def statsTiming (m : RequestMetrics) : Timing :=
  compute_timing ((m.domain_timings.map Prod.snd).flatten)

end RequestMetrics

/-! ## Transport model -/

/-- An `httpx.Response`, reduced to what the retry engine inspects: the
status code, plus an identity tag distinguishing response objects. -/
structure HResponse where
  status : Nat
  tag : Nat
deriving DecidableEq, Repr

/-- The `httpx` exception classes distinguished by `_classify_exception`'s
`isinstance` chain, each carrying its `str(exc)` message. -/
inductive TransportExn where
  | timeoutExc (msg : String)
  | connectError (msg : String)
  | proxyError (msg : String)
  | tooManyRedirects (msg : String)
  | httpError (msg : String)
  | otherExc (msg : String)
deriving DecidableEq, Repr

/-- Python `str(exc)`. -/
def TransportExn.msg : TransportExn → String
  | .timeoutExc m => m
  | .connectError m => m
  | .proxyError m => m
  | .tooManyRedirects m => m
  | .httpError m => m
  | .otherExc m => m

/-- Python `_classify_exception(exc) -> (error_type, retryable)`. -/
def classifyException : TransportExn → ErrKind × Bool
  | .timeoutExc _ => (.timeout, true)
  | .connectError _ => (.proxy, true)
  | .proxyError _ => (.proxy, true)
  | .tooManyRedirects _ => (.redirect, false)
  | .httpError _ => (.request, false)
  | .otherExc _ => (.other, false)

/-- What one transport attempt (`client.request(...)`) does: return a
response or raise an exception. -/
inductive Outcome where
  | resp (r : HResponse)
  | exn (e : TransportExn)
deriving DecidableEq, Repr

/-- Python `_NO_RETRY_STATUSES = {401, 403, 404}`. -/
def NO_RETRY_STATUSES : List Nat := [401, 403, 404]

/-! ## Request client (`Request`) -/

/-- Python `Request` instance state. -/
structure Request where
  timeout : Nat
  retries : Nat
  backoff_factor : Nat
  retry_on_status : List Nat
  save_responses : Bool
  metrics : Option RequestMetrics
  headers : List (String × String)
  cookies : List (String × String)
  auth : Option (String × String)
  proxy : Option String
  exception_descriptor : ExceptionDescriptor
  request_count : Nat
  timeout_err : Nat
  proxy_err : Nat
  bad_status_code_err : Nat
  redirect_err : Nat
  request_err : Nat
  other_err : Nat
  response : Option HResponse
  last_request_url : Option String
  last_request_time : Option Nat
deriving DecidableEq, Repr

namespace Request

/-- Python `Request()` with the constructor defaults. -/
def mk' (timeout : Nat := 30) (retries : Nat := 3) (backoff_factor : Nat := 2)
    (retry_on_status : List Nat := [429, 500, 502, 503, 504])
    (metrics : Option RequestMetrics := none) : Request :=
  ⟨timeout, retries, backoff_factor, retry_on_status, false, metrics,
   [], [], none, none, ⟨[]⟩, 0, 0, 0, 0, 0, 0, 0, none, none, none⟩

/-- Python `set_headers` / `reset_headers`. -/
def set_headers (r : Request) (hs : List (String × String)) : Request :=
  { r with headers := hs }

/-- Python `set_cookies` / `reset_cookies`. -/
def set_cookies (r : Request) (cs : List (String × String)) : Request :=
  { r with cookies := cs }

/-- Python `set_auth`. -/
def set_auth (r : Request) (username password : String) : Request :=
  { r with auth := some (username, password) }

/-- Python `set_proxy`. -/
def set_proxy (r : Request) (proxy_config : Option String) : Request :=
  { r with proxy := proxy_config }

/-- Python `_extract_domain`. -/
def extract_domain (url : String) : String := netlocOf url

/-- Python `_get_proxy_key`: `None` without a proxy, else `host:port` with
credentials stripped (`urlparse(...).hostname/port`; the case-folding
of `hostname` is not modeled). -/
def get_proxy_key (r : Request) : Option String :=
  match r.proxy with
  | none => none
  | some p =>
      let cs := p.toList
      let rest := match breakOnSub [':', '/', '/'] cs with
        | some (_, after) => after
        | none => cs
      let hostport := takeNetloc rest
      let hp := if hostport.contains '@' then
          (hostport.reverse.takeWhile (fun c => !(c == '@'))).reverse
        else hostport
      some (String.mk hp)

/-- The six local per-kind counters (`getattr(self, f"{error_type}_err")`). -/
def kindCounter (r : Request) : ErrKind → Nat
  | .timeout => r.timeout_err
  | .proxy => r.proxy_err
  | .badStatus => r.bad_status_code_err
  | .redirect => r.redirect_err
  | .request => r.request_err
  | .other => r.other_err

/-- Python `setattr(self, f"{error_type}_err", ... + 1)` for the six kinds. -/
def bumpKind (r : Request) : ErrKind → Request
  | .timeout => { r with timeout_err := r.timeout_err + 1 }
  | .proxy => { r with proxy_err := r.proxy_err + 1 }
  | .badStatus => { r with bad_status_code_err := r.bad_status_code_err + 1 }
  | .redirect => { r with redirect_err := r.redirect_err + 1 }
  | .request => { r with request_err := r.request_err + 1 }
  | .other => { r with other_err := r.other_err + 1 }

/-- Python `_record_error(error_type, message, url)`: journal entry (timestamped
`t` by the clock) plus local counter bump. -/
def recError (r : Request) (t : Nat) (error_type : ErrKind)
    (message url : String) : Request :=
  let r := { r with exception_descriptor :=
      r.exception_descriptor.add_error t error_type message url }
  bumpKind r error_type

/-- Apply `f` to the attached collector, when one is attached. -/
def withMetrics (r : Request) (f : RequestMetrics → RequestMetrics) : Request :=
  match r.metrics with
  | none => r
  | some m => { r with metrics := some (f m) }

end Request

namespace Request

/-! ### Error introspection -/

/-- Python `has_errors`: any journal entry after the last request timestamp;
`False` when no request was ever issued. -/
def has_errors (r : Request) : Bool :=
  match r.last_request_time with
  | none => false
  | some ts => r.exception_descriptor.has_errors_after ts

/-- Python `is_blocked`: substring heuristic over the last message, lower-cased. -/
def is_blocked (r : Request) : Bool :=
  match r.exception_descriptor.get_last_error with
  | none => false
  | some last =>
      let msg := strLower last.msg
      strContains msg "401" || strContains msg "403"
        || strContains msg "429" || strContains msg "forcibly closed"

/-- Python `is_proxy_error`: the last entry's type is `PROXY`. -/
def is_proxy_error (r : Request) : Bool :=
  match r.exception_descriptor.get_last_error with
  | none => false
  | some last => last.etype = ErrKind.proxy

/-- Python `is_timeout`: the last entry's type is `TIMEOUT`. -/
def is_timeout (r : Request) : Bool :=
  match r.exception_descriptor.get_last_error with
  | none => false
  | some last => last.etype = ErrKind.timeout

/-- Python `is_server_down`: the last message contains some code in `[500, 600)`. -/
def is_server_down (r : Request) : Bool :=
  match r.exception_descriptor.get_last_error with
  | none => false
  | some last =>
      (List.range 100).any (fun i => strContains last.msg (toString (500 + i)))

/-! ### Abort decision -/

/-- Which branch of `should_abort` fired (observes the debug/error log
call the branch makes). -/
inductive AbortReason where
  | noAbort
  | proxyBlockedOrDown
  | pageTimeout
  | serverDown
  | fallbackLastError
deriving DecidableEq, Repr

/-- Python `should_abort(logger, proxy_on)`: the returned Bool paired with the
branch taken. -/
def should_abort (r : Request) (proxy_on : Bool) : Bool × AbortReason :=
  if ¬ r.has_errors then (false, .noAbort)
  else if proxy_on ∧ (r.is_blocked ∨ r.is_proxy_error) then
    (true, .proxyBlockedOrDown)
  else if r.is_timeout then (true, .pageTimeout)
  else if r.is_server_down then (true, .serverDown)
  else (true, .fallbackLastError)

/-- Python `is_target_unhealthy(url)` on the client: delegate or `False`. -/
def is_target_unhealthy (r : Request) (url : String) : Bool :=
  match r.metrics with
  | none => false
  | some m => m.is_target_unhealthy url

/-! ### The retry loop (`_make_request` / `_async_make_request`)

The sync and async loops are textually identical except for the sleep
primitive, so one embedding covers both.  The loop is driven by:
`transport i` — the outcome of the attempt with 0-based index `i`;
`elapsed i` — its measured latency; `rands i` — the entropy pair the
metrics collector would consume on that attempt.  The model returns the
final client state, the clock value, the returned response (`none` for
the exception path's `return None`), the list of back-off sleeps
performed, and the number of transport invocations. -/

/-- Result of one `_make_request` run. -/
structure LoopOut where
  req : Request
  time : Nat
  result : Option HResponse
  sleeps : List Nat
  calls : Nat
deriving DecidableEq, Repr

/-- Bookkeeping performed right after a transport attempt returns a
response: store it, bump the local request counter, and report to the
attached collector. -/
def noteResponse (r : Request) (domain : String) (proxy_key : Option String)
    (resp : HResponse) (el : ℚ) (rd : Nat × Nat) : Request :=
  ({ r with response := some resp,
            request_count := r.request_count + 1 } : Request).withMetrics
    (fun m => m.record_request domain proxy_key resp.status el rd.1 rd.2)

/-- The `for attempt in range(self._retries + 1)` body.  `fuel` is the
number of iterations left; exhausted fuel is the fall-through
`return self.response` after the loop. -/
def requestLoop (url domain : String) (proxy_key : Option String)
    (transport : Nat → Outcome) (elapsed : Nat → ℚ)
    (rands : Nat → Nat × Nat) :
    Nat → Nat → Request → Nat → LoopOut
  | _attempt, 0, r, t => ⟨r, t, r.response, [], 0⟩
  | attempt, fuel + 1, r, t =>
    match transport attempt with
    | .resp resp =>
      let r := noteResponse r domain proxy_key resp (elapsed attempt)
        (rands attempt)
      let status := resp.status
      if 200 ≤ status ∧ status < 300 then ⟨r, t, some resp, [], 1⟩
      else if status ∈ NO_RETRY_STATUSES then
        let r := r.recError t .badStatus ("HTTP " ++ toString status) url
        ⟨r, t + 1, some resp, [], 1⟩
      else if status ∈ r.retry_on_status ∧ attempt < r.retries then
        let out := requestLoop url domain proxy_key transport elapsed rands
          (attempt + 1) fuel r t
        ⟨out.req, out.time, out.result,
         r.backoff_factor ^ attempt :: out.sleeps, out.calls + 1⟩
      else
        let r := r.recError t .badStatus ("HTTP " ++ toString status) url
        ⟨r, t + 1, some resp, [], 1⟩
    | .exn e =>
      let kr := classifyException e
      let r := r.recError t kr.1 e.msg url
      let t := t + 1
      if kr.2 = true ∧ attempt < r.retries then
        let out := requestLoop url domain proxy_key transport elapsed rands
          (attempt + 1) fuel r t
        ⟨out.req, out.time, out.result,
         r.backoff_factor ^ attempt :: out.sleeps, out.calls + 1⟩
      else
        let r := r.withMetrics (fun m => m.record_error domain proxy_key kr.1)
        ⟨r, t, none, [], 1⟩

/-- Python `_make_request(method, url, ...)`; `t0` is the clock value at entry
(`self._last_request_time = datetime.now()`). -/
def make_request (r : Request) (url : String) (transport : Nat → Outcome)
    (t0 : Nat) (elapsed : Nat → ℚ) (rands : Nat → Nat × Nat) : LoopOut :=
  let r := { r with last_request_time := some t0,
                    last_request_url := some url,
                    response := none }
  requestLoop url (extract_domain url) (get_proxy_key r) transport elapsed
    rands 0 (r.retries + 1) r (t0 + 1)

/-! ### SOAP pass-through (`soap_call`) -/

/-- What the externally supplied service callable did. -/
inductive SoapOutcome where
  | ok (v : Nat)
  | fault (msg : String)
  | transportFault (msg : String)
  | exc (msg : String)
deriving DecidableEq, Repr

/-- Result of one `soap_call`: final state, clock, and either a raised
exception (`Except.error`) or the Python return value (`none` on an
absorbed error). -/
structure SoapOut where
  req : Request
  time : Nat
  result : Except String (Option Nat)
deriving Repr

/-- Python `soap_call(service_method, raise_faults, **params)`. -/
def soap_call (r : Request) (raise_faults : Bool) (outcome : SoapOutcome)
    (t0 : Nat) (elapsed : ℚ) (ed ep : Nat) : SoapOut :=
  let r := { r with last_request_time := some t0 }
  let t := t0 + 1
  match outcome with
  | .ok v =>
      let r := { r with request_count := r.request_count + 1 }
      let r := r.withMetrics (fun m =>
        m.record_request "soap" r.get_proxy_key 200 elapsed ed ep)
      ⟨r, t, .ok (some v)⟩
  | .fault msg =>
      let r := r.recError t .request ("SOAP Fault: " ++ msg) "soap"
      let r := r.withMetrics (fun m =>
        m.record_error "soap" r.get_proxy_key .request)
      if raise_faults then ⟨r, t + 1, .error ("SOAP Fault: " ++ msg)⟩
      else ⟨r, t + 1, .ok none⟩
  | .transportFault msg =>
      let r := r.recError t .proxy ("SOAP TransportError: " ++ msg) "soap"
      let r := r.withMetrics (fun m =>
        m.record_error "soap" r.get_proxy_key .proxy)
      ⟨r, t + 1, .ok none⟩
  | .exc msg =>
      let error_type := if strContains (strLower msg) "timeout"
        then ErrKind.timeout else ErrKind.other
      let r := r.recError t error_type msg "soap"
      let r := r.withMetrics (fun m =>
        m.record_error "soap" r.get_proxy_key error_type)
      ⟨r, t + 1, .ok none⟩

end Request

namespace RequestMetrics

/-- Occupancy of every per-key reservoir (domain and proxy) equals
`min totalSeen RESERVOIR_SIZE`. -/
def ReservoirInv (m : RequestMetrics) : Prop :=
  (∀ d, (dictGetD m.domain_timings d []).length
      = min (dictGetD m.domain_request_counts d 0) RESERVOIR_SIZE)
  ∧ ∀ p, (dictGetD m.proxy_stats p ⟨0, 0, []⟩).timings.length
      = min (dictGetD m.proxy_stats p ⟨0, 0, []⟩).count RESERVOIR_SIZE

/-- One recorded outcome, as fed to `record_request`. -/
structure RecordCall where
  domain : String
  proxy : Option String
  status : Nat
  elapsed : ℚ
  ed : Nat
  ep : Nat

/-- A run of the collector: fold `record_request` over recorded outcomes. -/
def applyRecords (m : RequestMetrics) (cs : List RecordCall) : RequestMetrics :=
  cs.foldl
    (fun acc c => acc.record_request c.domain c.proxy c.status c.elapsed c.ed c.ep)
    m

end RequestMetrics

/-! ## Concrete fixtures used by individual claims -/

/-- The 100 latencies `1..100` of the percentile scenario. -/
def vals100 : List ℚ := (List.range 100).map (fun i => (i : ℚ) + 1)

/-- Recording `1..100` as successful latencies on one domain. -/
def calls100 : List RequestMetrics.RecordCall :=
  (List.range 100).map (fun i => ⟨"example.com", none, 200, (i : ℚ) + 1, 0, 0⟩)

/-- One successful recorded outcome (reservoir-invariant witness). -/
def callsW : List RequestMetrics.RecordCall :=
  [⟨"example.com", none, 200, 7, 0, 0⟩]

/-- Three failures over two distinct proxies (circuit-breaker witness,
mirroring the repository's own unit tests). -/
def breakerRun : RequestMetrics :=
  (((RequestMetrics.init 3 2).record_error "example.com" (some "proxy1")
      .timeout).record_error "example.com" (some "proxy2") .timeout
    ).record_error "example.com" (some "proxy1") .timeout

/-- A client whose last journal entry mentions a 5xx code after its most
recent call (abort-decision witness). -/
def serverDownClient : Request :=
  { Request.mk' with
      exception_descriptor := ⟨[(5, ⟨.badStatus, "HTTP 503", "u"⟩)]⟩,
      last_request_time := some 4 }

/-- A client that never issued a request yet carries a journal entry
(interface edge-case witness). -/
def neverCalledClient : Request :=
  { Request.mk' with
      exception_descriptor := ⟨[(5, ⟨.timeout, "boom", "u"⟩)]⟩ }

/-! ## Dictionary lemmas -/

section DictLemmas

variable {κ β : Type} [DecidableEq κ]

theorem dictFind_nil (k : κ) : dictFind ([] : List (κ × β)) k = none := rfl

theorem dictFind_cons (a : κ) (b : β) (tl : List (κ × β)) (k : κ) :
    dictFind ((a, b) :: tl) k = if a = k then some b else dictFind tl k := by
  by_cases h : a = k <;> simp [dictFind, List.find?_cons, h]

theorem dictFind_dictSet (m : List (κ × β)) (k k' : κ) (v : β) :
    dictFind (dictSet m k v) k' = if k' = k then some v else dictFind m k' := by
  induction m with
  | nil =>
      rcases eq_or_ne k' k with h | h
      · subst h; simp [dictSet, dictFind_cons]
      · simp [dictSet, dictFind_cons, h, Ne.symm h, dictFind_nil]
  | cons p tl ih =>
      obtain ⟨a, b⟩ := p
      rcases eq_or_ne a k with hak | hak
      · subst hak
        rcases eq_or_ne k' a with h | h
        · subst h; simp [dictSet, dictFind_cons]
        · simp [dictSet, dictFind_cons, h, Ne.symm h]
      · rcases eq_or_ne k' a with h | h
        · subst h
          simp [dictSet, dictFind_cons, hak, Ne.symm hak]
        · simp [dictSet, dictFind_cons, hak, Ne.symm h, ih]

theorem dictGetD_dictSet (m : List (κ × β)) (k k' : κ) (v d : β) :
    dictGetD (dictSet m k v) k' d = if k' = k then v else dictGetD m k' d := by
  unfold dictGetD
  rw [dictFind_dictSet]
  by_cases h : k' = k <;> simp [h]

theorem dictPop_cons (a : κ) (b : β) (tl : List (κ × β)) (k : κ) :
    dictPop ((a, b) :: tl) k
      = if a = k then dictPop tl k else (a, b) :: dictPop tl k := by
  by_cases h : a = k <;> simp [dictPop, List.filter_cons, h]

theorem dictFind_dictPop (m : List (κ × β)) (k k' : κ) :
    dictFind (dictPop m k) k' = if k' = k then none else dictFind m k' := by
  induction m with
  | nil => simp [dictPop, dictFind_nil]
  | cons p tl ih =>
      obtain ⟨a, b⟩ := p
      rcases eq_or_ne a k with hak | hak
      · subst hak
        rcases eq_or_ne k' a with h | h
        · subst h; simp [dictPop_cons, dictFind_cons, ih]
        · simp [dictPop_cons, dictFind_cons, h, Ne.symm h, ih]
      · rcases eq_or_ne k' a with h | h
        · subst h
          simp [dictPop_cons, dictFind_cons, hak, Ne.symm hak]
        · simp [dictPop_cons, dictFind_cons, hak, Ne.symm h, ih]

/-- Writing a key that is not present appends the pair at the end. -/
theorem dictSet_fresh (m : List (κ × β)) (k : κ) (v : β)
    (h : keyMem m k = false) : dictSet m k v = m ++ [(k, v)] := by
  induction m with
  | nil => rfl
  | cons p tl ih =>
      obtain ⟨a, b⟩ := p
      simp [keyMem] at h
      have htl : keyMem tl k = false := by
        simp [keyMem]
        exact h.2
      simp [dictSet, h.1, ih htl]

end DictLemmas

/-! ## Journal lemmas -/

namespace ExceptionDescriptor

/-- Recording with a timestamp not yet in the journal appends the entry. -/
theorem add_error_fresh (ed : ExceptionDescriptor) (t : Nat) (k : ErrKind)
    (msg url : String) (h : keyMem ed.errors t = false) :
    (ed.add_error t k msg url).errors = ed.errors ++ [(t, ⟨k, msg, url⟩)] := by
  simp [add_error, dictSet_fresh ed.errors t _ h]

/-- After a fresh-timestamp record, the last error is the new entry. -/
theorem get_last_error_add_fresh (ed : ExceptionDescriptor) (t : Nat)
    (k : ErrKind) (msg url : String) (h : keyMem ed.errors t = false) :
    (ed.add_error t k msg url).get_last_error = some ⟨k, msg, url⟩ := by
  simp [get_last_error, add_error_fresh ed t k msg url h]

end ExceptionDescriptor

/-! ## Projection lemmas for the client state -/

namespace Request

theorem withMetrics_retries (r : Request) (f : RequestMetrics → RequestMetrics) :
    (r.withMetrics f).retries = r.retries := by
  cases hm : r.metrics <;> simp [withMetrics, hm]

theorem withMetrics_backoff (r : Request) (f : RequestMetrics → RequestMetrics) :
    (r.withMetrics f).backoff_factor = r.backoff_factor := by
  cases hm : r.metrics <;> simp [withMetrics, hm]

theorem withMetrics_retry_on_status (r : Request)
    (f : RequestMetrics → RequestMetrics) :
    (r.withMetrics f).retry_on_status = r.retry_on_status := by
  cases hm : r.metrics <;> simp [withMetrics, hm]

theorem withMetrics_bad_counter (r : Request)
    (f : RequestMetrics → RequestMetrics) :
    (r.withMetrics f).bad_status_code_err = r.bad_status_code_err := by
  cases hm : r.metrics <;> simp [withMetrics, hm]

theorem withMetrics_journal (r : Request) (f : RequestMetrics → RequestMetrics) :
    (r.withMetrics f).exception_descriptor = r.exception_descriptor := by
  cases hm : r.metrics <;> simp [withMetrics, hm]

theorem bumpKind_journal (r : Request) (k : ErrKind) :
    (r.bumpKind k).exception_descriptor = r.exception_descriptor := by
  cases k <;> rfl

theorem recError_bad_counter (r : Request) (t : Nat) (msg url : String) :
    (r.recError t .badStatus msg url).bad_status_code_err
      = r.bad_status_code_err + 1 := rfl

theorem recError_retries (r : Request) (t : Nat) (k : ErrKind)
    (msg url : String) : (r.recError t k msg url).retries = r.retries := by
  cases k <;> rfl

theorem recError_journal (r : Request) (t : Nat) (k : ErrKind)
    (msg url : String) :
    (r.recError t k msg url).exception_descriptor
      = r.exception_descriptor.add_error t k msg url := by
  cases k <;> rfl

end Request

/-! ## Metrics collector lemmas -/

namespace RequestMetrics

theorem record_request_domain_timings (m : RequestMetrics) (d : String)
    (p : Option String) (s : Nat) (rt : ℚ) (ed ep : Nat) :
    (m.record_request d p s rt ed ep).domain_timings
      = dictSet m.domain_timings d
          (reservoirStep (dictGetD m.domain_timings d [])
            (dictGetD m.domain_request_counts d 0 + 1) rt ed) := by
  simp only [record_request, record_target_failure]
  split <;> rfl

theorem record_request_domain_counts (m : RequestMetrics) (d : String)
    (p : Option String) (s : Nat) (rt : ℚ) (ed ep : Nat) :
    (m.record_request d p s rt ed ep).domain_request_counts
      = dictSet m.domain_request_counts d
          (dictGetD m.domain_request_counts d 0 + 1) := by
  simp only [record_request, record_target_failure]
  split <;> rfl

theorem record_request_proxy_stats (m : RequestMetrics) (d : String)
    (p : Option String) (s : Nat) (rt : ℚ) (ed ep : Nat) :
    (m.record_request d p s rt ed ep).proxy_stats
      = dictSet m.proxy_stats (p.getD "direct")
          ⟨(dictGetD m.proxy_stats (p.getD "direct") ⟨0, 0, []⟩).count + 1,
           (if 200 ≤ s ∧ s < 300
            then (dictGetD m.proxy_stats (p.getD "direct") ⟨0, 0, []⟩).success + 1
            else (dictGetD m.proxy_stats (p.getD "direct") ⟨0, 0, []⟩).success),
           reservoirStep
             (dictGetD m.proxy_stats (p.getD "direct") ⟨0, 0, []⟩).timings
             ((dictGetD m.proxy_stats (p.getD "direct") ⟨0, 0, []⟩).count + 1)
             rt ep⟩ := by
  simp only [record_request, record_target_failure]
  split <;> rfl

theorem record_request_target_failures_success (m : RequestMetrics)
    (d : String) (p : Option String) (s : Nat) (rt : ℚ) (ed ep : Nat)
    (h2xx : 200 ≤ s ∧ s < 300) :
    (m.record_request d p s rt ed ep).target_failures
      = dictPop m.target_failures d := by
  simp only [record_request, record_target_failure]
  simp [h2xx]

theorem record_error_request_count (m : RequestMetrics) (d : String)
    (p : Option String) (k : ErrKind) :
    (m.record_error d p k).request_count = m.request_count := by
  cases k <;> rfl

theorem record_error_kind_counter (m : RequestMetrics) (d : String)
    (p : Option String) (k : ErrKind) :
    (m.record_error d p k).kindCounter k = m.kindCounter k + 1 := by
  cases k <;> rfl

theorem record_error_target_failures (m : RequestMetrics) (d : String)
    (p : Option String) (k : ErrKind) :
    (m.record_error d p k).target_failures
      = dictSet m.target_failures d
          ⟨(dictGetD m.target_failures d ⟨0, []⟩).failures + 1,
           psetAdd (dictGetD m.target_failures d ⟨0, []⟩).proxies
             (p.getD "direct")⟩ := by
  cases k <;> rfl

/-! ### The reservoir invariant (claim C5) -/

theorem reservoirStep_length (res : List ℚ) (c n : Nat) (v : ℚ) (e : Nat)
    (h : res.length = min c RESERVOIR_SIZE) :
    (reservoirStep res n v e).length = min (c + 1) RESERVOIR_SIZE := by
  unfold reservoirStep
  by_cases hlt : res.length < RESERVOIR_SIZE
  · simp [hlt]
    omega
  · simp [hlt]
    split
    · simp [List.length_set]
      omega
    · omega

theorem record_request_inv (m : RequestMetrics) (d : String)
    (p : Option String) (s : Nat) (rt : ℚ) (ed ep : Nat)
    (h : ReservoirInv m) :
    ReservoirInv (m.record_request d p s rt ed ep) := by
  obtain ⟨h1, h2⟩ := h
  constructor
  · intro d'
    rw [record_request_domain_timings, record_request_domain_counts,
        dictGetD_dictSet, dictGetD_dictSet]
    rcases eq_or_ne d' d with rfl | hne
    · simp
      exact reservoirStep_length _ _ _ _ _ (h1 d')
    · simp [hne]
      exact h1 d'
  · intro p'
    rw [record_request_proxy_stats, dictGetD_dictSet]
    rcases eq_or_ne p' (p.getD "direct") with rfl | hne
    · simp
      exact reservoirStep_length _ _ _ _ _ (h2 _)
    · simp [hne]
      exact h2 p'

theorem applyRecords_inv (cs : List RecordCall) (m : RequestMetrics)
    (h : ReservoirInv m) : ReservoirInv (applyRecords m cs) := by
  induction cs generalizing m with
  | nil => exact h
  | cons c tl ih =>
      exact ih _ (record_request_inv _ _ _ _ _ _ _ h)

theorem init_inv (a b : Nat) : ReservoirInv (init a b) := by
  constructor <;> intro x <;> simp [init, dictGetD, dictFind_nil]

end RequestMetrics

/-! ## Retry-loop lemmas -/

namespace Request

theorem noteResponse_retries (r : Request) (domain : String)
    (pk : Option String) (resp : HResponse) (el : ℚ) (rd : Nat × Nat) :
    (noteResponse r domain pk resp el rd).retries = r.retries := by
  unfold noteResponse
  rw [withMetrics_retries]

theorem noteResponse_backoff (r : Request) (domain : String)
    (pk : Option String) (resp : HResponse) (el : ℚ) (rd : Nat × Nat) :
    (noteResponse r domain pk resp el rd).backoff_factor = r.backoff_factor := by
  unfold noteResponse
  rw [withMetrics_backoff]

theorem noteResponse_retry_on_status (r : Request) (domain : String)
    (pk : Option String) (resp : HResponse) (el : ℚ) (rd : Nat × Nat) :
    (noteResponse r domain pk resp el rd).retry_on_status
      = r.retry_on_status := by
  unfold noteResponse
  rw [withMetrics_retry_on_status]

theorem noteResponse_bad_counter (r : Request) (domain : String)
    (pk : Option String) (resp : HResponse) (el : ℚ) (rd : Nat × Nat) :
    (noteResponse r domain pk resp el rd).bad_status_code_err
      = r.bad_status_code_err := by
  unfold noteResponse
  rw [withMetrics_bad_counter]

theorem noteResponse_journal (r : Request) (domain : String)
    (pk : Option String) (resp : HResponse) (el : ℚ) (rd : Nat × Nat) :
    (noteResponse r domain pk resp el rd).exception_descriptor
      = r.exception_descriptor := by
  unfold noteResponse
  rw [withMetrics_journal]

/-- One-step unfolding of the loop when the transport attempt returns a
response. -/
theorem requestLoop_succ_resp (url domain : String) (pk : Option String)
    (transport : Nat → Outcome) (elapsed : Nat → ℚ) (rands : Nat → Nat × Nat)
    (attempt fuel : Nat) (r : Request) (t : Nat) (resp : HResponse)
    (h : transport attempt = .resp resp) :
    requestLoop url domain pk transport elapsed rands attempt (fuel + 1) r t
      = (let r1 := noteResponse r domain pk resp (elapsed attempt)
            (rands attempt)
         if 200 ≤ resp.status ∧ resp.status < 300 then
           ⟨r1, t, some resp, [], 1⟩
         else if resp.status ∈ NO_RETRY_STATUSES then
           ⟨r1.recError t .badStatus ("HTTP " ++ toString resp.status) url,
            t + 1, some resp, [], 1⟩
         else if resp.status ∈ r1.retry_on_status ∧ attempt < r1.retries then
           let out := requestLoop url domain pk transport elapsed rands
             (attempt + 1) fuel r1 t
           ⟨out.req, out.time, out.result,
            r1.backoff_factor ^ attempt :: out.sleeps, out.calls + 1⟩
         else
           ⟨r1.recError t .badStatus ("HTTP " ++ toString resp.status) url,
            t + 1, some resp, [], 1⟩) := by
  simp only [requestLoop, h]

/-- One-step unfolding of the loop when the transport attempt raises. -/
theorem requestLoop_succ_exn (url domain : String) (pk : Option String)
    (transport : Nat → Outcome) (elapsed : Nat → ℚ) (rands : Nat → Nat × Nat)
    (attempt fuel : Nat) (r : Request) (t : Nat) (e : TransportExn)
    (h : transport attempt = .exn e) :
    requestLoop url domain pk transport elapsed rands attempt (fuel + 1) r t
      = (let kr := classifyException e
         let r1 := r.recError t kr.1 e.msg url
         if kr.2 = true ∧ attempt < r1.retries then
           let out := requestLoop url domain pk transport elapsed rands
             (attempt + 1) fuel r1 (t + 1)
           ⟨out.req, out.time, out.result,
            r1.backoff_factor ^ attempt :: out.sleeps, out.calls + 1⟩
         else
           ⟨r1.withMetrics (fun m => m.record_error domain pk kr.1),
            t + 1, none, [], 1⟩) := by
  simp only [requestLoop, h]

/-- Behaviour of the attempt loop when every attempt yields the same
retryable status `s`: it burns the whole budget, sleeping
`backoff_factor ^ attempt` between attempts, ends with the final
attempt's response, and bumps the local bad-status counter once. -/
theorem requestLoop_retryable (url domain : String) (pk : Option String)
    (transport : Nat → Outcome) (elapsed : Nat → ℚ) (rands : Nat → Nat × Nat)
    (resp : Nat → HResponse) (s : Nat)
    (htr : ∀ i, transport i = Outcome.resp (resp i))
    (hst : ∀ i, (resp i).status = s)
    (h2xx : ¬ (200 ≤ s ∧ s < 300)) (hnr : s ∉ NO_RETRY_STATUSES) :
    ∀ (fuel : Nat) (r : Request) (attempt t : Nat),
      s ∈ r.retry_on_status → attempt + fuel = r.retries + 1 →
      0 < fuel →
      (requestLoop url domain pk transport elapsed rands attempt fuel r t).calls
          = fuel
      ∧ (requestLoop url domain pk transport elapsed rands attempt fuel r t).sleeps
          = (List.range (fuel - 1)).map
              (fun i => r.backoff_factor ^ (attempt + i))
      ∧ (requestLoop url domain pk transport elapsed rands attempt fuel r t).result
          = some (resp r.retries)
      ∧ (requestLoop url domain pk transport elapsed rands attempt fuel
            r t).req.bad_status_code_err
          = r.bad_status_code_err + 1 := by
  intro fuel
  induction fuel with
  | zero => intro r attempt t _ _ h0; exact absurd h0 (by omega)
  | succ f ih =>
      intro r attempt t hmem hsum _
      rw [requestLoop_succ_resp url domain pk transport elapsed rands attempt f
        r t (resp attempt) (htr attempt)]
      simp only [hst attempt]
      rw [if_neg h2xx, if_neg hnr]
      rcases Nat.eq_zero_or_pos f with rfl | hf
      · have hnret : ¬ (s ∈ (noteResponse r domain pk (resp attempt)
            (elapsed attempt) (rands attempt)).retry_on_status
              ∧ attempt < (noteResponse r domain pk (resp attempt)
                (elapsed attempt) (rands attempt)).retries) := by
          rw [noteResponse_retry_on_status, noteResponse_retries]
          rintro ⟨-, hlt⟩
          omega
        rw [if_neg hnret]
        refine ⟨rfl, rfl, ?_, ?_⟩
        · have : attempt = r.retries := by omega
          simp [this]
        · simp [recError_bad_counter, noteResponse_bad_counter]
      · have hret : s ∈ (noteResponse r domain pk (resp attempt)
            (elapsed attempt) (rands attempt)).retry_on_status
              ∧ attempt < (noteResponse r domain pk (resp attempt)
                (elapsed attempt) (rands attempt)).retries := by
          rw [noteResponse_retry_on_status, noteResponse_retries]
          exact ⟨hmem, by omega⟩
        rw [if_pos hret]
        obtain ⟨ihc, ihs, ihr, ihb⟩ :=
          ih (noteResponse r domain pk (resp attempt) (elapsed attempt)
            (rands attempt)) (attempt + 1) t
          (by rw [noteResponse_retry_on_status]; exact hmem)
          (by rw [noteResponse_retries]; omega)
          hf
        refine ⟨?_, ?_, ?_, ?_⟩
        · simp [ihc]
        · simp only [ihs, noteResponse_backoff, noteResponse_retries]
          obtain ⟨f', rfl⟩ : ∃ f', f = f' + 1 := ⟨f - 1, by omega⟩
          simp only [Nat.add_sub_cancel, List.range_succ_eq_map, List.map_cons,
            List.map_map]
          refine congrArg₂ _ (by rw [Nat.add_zero]) ?_
          refine List.map_congr_left ?_
          intro i _
          simp [Function.comp]
          ring_nf
        · simp only [ihr, noteResponse_retries]
        · simp only [ihb, noteResponse_bad_counter]

end Request

/-! ## Claim theorems -/

/-- Claim C1: `record_error(domain, proxy, kind)` bumps the named
per-kind counter by one and gives the domain's circuit-breaker entry one
more failure with the proxy key added — but, contrary to the claim (and
to the repository's own test `test_record_error_increments_request_count`),
it never touches the shared `request_count`: on a fresh collector the
failing input `record_error("example.com", None, "timeout")` leaves
`request_count` at 0 where the claim requires 1. -/
theorem record_error_skips_request_count :
    (∀ (m : RequestMetrics) (d : String) (p : Option String) (k : ErrKind),
      (m.record_error d p k).request_count = m.request_count)
    ∧ (∀ (m : RequestMetrics) (d : String) (p : Option String) (k : ErrKind),
      (m.record_error d p k).kindCounter k = m.kindCounter k + 1)
    ∧ (∀ (m : RequestMetrics) (d : String) (p : Option String) (k : ErrKind),
      dictFind (m.record_error d p k).target_failures d
        = some ⟨(dictGetD m.target_failures d ⟨0, []⟩).failures + 1,
                psetAdd (dictGetD m.target_failures d ⟨0, []⟩).proxies
                  (p.getD "direct")⟩)
    ∧ ((RequestMetrics.init 3 2).record_error "example.com" none
        .timeout).request_count = 0 := by
  refine ⟨RequestMetrics.record_error_request_count,
          RequestMetrics.record_error_kind_counter, ?_, rfl⟩
  intro m d p k
  rw [RequestMetrics.record_error_target_failures, dictFind_dictSet]
  simp

/-- Claim C2: the journal is keyed by the raw clock value, so two
`record` calls landing on the same timestamp keep only the later entry:
after recording "first" and "second" at the same tick the journal length
is 1, not 2 — the earlier entry is overwritten, contradicting the
claimed insertion-order tie-breaking. -/
theorem add_error_timestamp_collision_overwrites :
    (((ExceptionDescriptor.mk []).add_error 0 .timeout "first" "u1"
        ).add_error 0 .proxy "second" "u2").errors.length = 1
    ∧ (((ExceptionDescriptor.mk []).add_error 0 .timeout "first" "u1"
        ).add_error 0 .proxy "second" "u2").get_last_error
        = some ⟨.proxy, "second", "u2"⟩ := by
  constructor <;> rfl

/-- Claim C5: after any run of `record_request` from a fresh collector,
every per-key reservoir (domain and proxy) has occupancy exactly
`min totalSeen RESERVOIR_SIZE` (hence never above capacity); the
replacement draw `randint0 e n` lies in `[0, n)` for the persistent
total-seen counter `n`; and a full reservoir is overwritten at the drawn
index exactly when that index is below capacity. -/
theorem reservoir_invariant :
    (∀ (a b : Nat) (cs : List RequestMetrics.RecordCall),
      RequestMetrics.ReservoirInv
        (RequestMetrics.applyRecords (RequestMetrics.init a b) cs))
    ∧ (∀ e n : Nat, 0 < n → randint0 e n < n)
    ∧ (∀ (res : List ℚ) (n : Nat) (v : ℚ) (e : Nat),
        ¬ res.length < RESERVOIR_SIZE →
        reservoirStep res n v e
          = if randint0 e n < RESERVOIR_SIZE
            then res.set (randint0 e n) v else res) := by
  refine ⟨fun a b cs =>
    RequestMetrics.applyRecords_inv cs _ (RequestMetrics.init_inv a b),
    fun e n h => Nat.mod_lt _ h, ?_⟩
  intro res n v e h
  simp [reservoirStep, h]

/-- Witness for C5 at concrete inputs: the occupancy equation after one
recorded outcome, a concrete in-range draw, and a concrete
full-reservoir step. -/
theorem reservoir_invariant_witness :
    (dictGetD (RequestMetrics.applyRecords (RequestMetrics.init 3 2)
        callsW).domain_timings "example.com" []).length
      = min (dictGetD (RequestMetrics.applyRecords (RequestMetrics.init 3 2)
          callsW).domain_request_counts "example.com" 0) RESERVOIR_SIZE
    ∧ randint0 7 3 < 3
    ∧ reservoirStep (List.replicate 1000 (0 : ℚ)) 2000 5 1500
        = (if randint0 1500 2000 < RESERVOIR_SIZE
           then (List.replicate 1000 (0 : ℚ)).set (randint0 1500 2000) 5
           else List.replicate 1000 (0 : ℚ)) :=
  ⟨(reservoir_invariant.1 3 2 callsW).1 "example.com",
   reservoir_invariant.2.1 7 3 (by decide),
   reservoir_invariant.2.2 (List.replicate 1000 (0 : ℚ)) 2000 5 1500
     (by simp only [List.length_replicate, RESERVOIR_SIZE]; omega)⟩

/-- Claim C6: `is_target_unhealthy(url)` is true exactly when a
circuit-breaker entry for the URL's domain reaches both thresholds, and
recording any 2xx outcome for that domain deletes the entry, making the
domain healthy immediately afterwards. -/
theorem target_unhealthy_iff_thresholds :
    (∀ (m : RequestMetrics) (url : String),
      m.is_target_unhealthy url = true
        ↔ ∃ e, dictFind m.target_failures (netlocOf url) = some e
            ∧ m.max_target_failures ≤ e.failures
            ∧ m.min_distinct_proxies ≤ e.proxies.length)
    ∧ (∀ (m : RequestMetrics) (d : String) (p : Option String) (s : Nat)
        (rt : ℚ) (ed ep : Nat) (url : String),
        200 ≤ s → s < 300 → netlocOf url = d →
        dictFind (m.record_request d p s rt ed ep).target_failures d = none
        ∧ (m.record_request d p s rt ed ep).is_target_unhealthy url
            = false) := by
  constructor
  · intro m url
    unfold RequestMetrics.is_target_unhealthy
    cases h : dictFind m.target_failures (netlocOf url) with
    | none => simp [h]
    | some e => simp [h]
  · intro m d p s rt ed ep url hs1 hs2 hurl
    have hpop := RequestMetrics.record_request_target_failures_success
      m d p s rt ed ep ⟨hs1, hs2⟩
    constructor
    · rw [hpop, dictFind_dictPop]
      simp
    · simp only [RequestMetrics.is_target_unhealthy, hurl, hpop]
      rw [dictFind_dictPop]
      simp

/-- Witness for C6: after three failures across two proxies (thresholds
3 and 2) the target is unhealthy; one 2xx recorded outcome resets it. -/
theorem target_unhealthy_witness :
    breakerRun.is_target_unhealthy "https://example.com/page" = true
    ∧ (breakerRun.record_request "example.com" (some "proxy1") 200 100 0
        0).is_target_unhealthy "https://example.com/page" = false :=
  ⟨(target_unhealthy_iff_thresholds.1 breakerRun
      "https://example.com/page").mpr
    ⟨⟨3, ["proxy1", "proxy2"]⟩, by decide, by decide, by decide⟩,
   (target_unhealthy_iff_thresholds.2 breakerRun "example.com"
      (some "proxy1") 200 100 0 0 "https://example.com/page"
      (by decide) (by decide) (by decide)).2⟩

/-- Claim C3: with `retries = N` and a transport answering every attempt
with the same retryable status `s` (in the configured retry set, not 2xx,
not a no-retry status), the loop invokes the transport exactly `N + 1`
times, sleeps `backoff_factor ^ i` seconds after attempt `i` for
`i = 0..N-1`, returns the final attempt's response — preserving the true
status code — and bumps the local bad-status counter exactly once. -/
theorem retry_loop_exhausts_budget_on_retryable_status
    (r : Request) (url : String) (transport : Nat → Outcome) (t0 : Nat)
    (elapsed : Nat → ℚ) (rands : Nat → Nat × Nat) (resp : Nat → HResponse)
    (s N b : Nat)
    (hN : r.retries = N) (hb : r.backoff_factor = b)
    (htr : ∀ i, transport i = .resp (resp i))
    (hst : ∀ i, (resp i).status = s)
    (hmem : s ∈ r.retry_on_status)
    (h2xx : ¬ (200 ≤ s ∧ s < 300))
    (hnr : s ∉ NO_RETRY_STATUSES) :
    (r.make_request url transport t0 elapsed rands).calls = N + 1
    ∧ (r.make_request url transport t0 elapsed rands).sleeps
        = (List.range N).map (fun i => b ^ i)
    ∧ (r.make_request url transport t0 elapsed rands).result = some (resp N)
    ∧ (∀ st, (r.make_request url transport t0 elapsed rands).result = some st
        → st.status = s)
    ∧ (r.make_request url transport t0 elapsed rands).req.bad_status_code_err
        = r.bad_status_code_err + 1 := by
  subst hN
  subst hb
  have key := Request.requestLoop_retryable url (Request.extract_domain url)
    (Request.get_proxy_key { r with last_request_time := some t0, last_request_url := some url, response := none })
    transport elapsed rands resp s htr hst h2xx hnr
    (r.retries + 1)
    { r with last_request_time := some t0, last_request_url := some url, response := none }
    0 (t0 + 1) hmem (by simp) (by omega)
  obtain ⟨kc, ks, kr, kb⟩ := key
  dsimp only at ks kr kb
  simp only [Nat.add_sub_cancel, Nat.zero_add] at ks
  refine ⟨kc, ks, kr, ?_, kb⟩
  intro st hstres
  have hss : some (resp r.retries) = some st := by
    refine Eq.trans ?_ hstres
    exact kr.symm
  cases hss
  exact hst r.retries

/-- Witness for C3 at the spec's two scenarios: `retries = 2`,
`backoffFactor = 1`, endpoint always 500 — three transport calls, status
500 preserved, one local bad-status bump, sleeps `[1, 1]`; and
`backoffFactor = 2` over `retries = 3` — sleeps `[1, 2, 4]`. -/
theorem retry_loop_budget_witness :
    ((Request.mk' 30 2 1).make_request "https://example.com/page"
        (fun i => .resp ⟨500, i⟩) 10 (fun _ => 5) (fun _ => (0, 0))).calls = 3
    ∧ ((Request.mk' 30 2 1).make_request "https://example.com/page"
        (fun i => .resp ⟨500, i⟩) 10 (fun _ => 5) (fun _ => (0, 0))).sleeps
        = [1, 1]
    ∧ ((Request.mk' 30 2 1).make_request "https://example.com/page"
        (fun i => .resp ⟨500, i⟩) 10 (fun _ => 5) (fun _ => (0, 0))).result
        = some ⟨500, 2⟩
    ∧ ((Request.mk' 30 2 1).make_request "https://example.com/page"
        (fun i => .resp ⟨500, i⟩) 10 (fun _ => 5)
        (fun _ => (0, 0))).req.bad_status_code_err = 1
    ∧ ((Request.mk' 30 3 2).make_request "https://example.com/page"
        (fun i => .resp ⟨500, i⟩) 10 (fun _ => 5) (fun _ => (0, 0))).sleeps
        = [1, 2, 4] := by
  have h1 := retry_loop_exhausts_budget_on_retryable_status
    (Request.mk' 30 2 1) "https://example.com/page"
    (fun i => .resp ⟨500, i⟩) 10 (fun _ => 5) (fun _ => (0, 0))
    (fun i => ⟨500, i⟩) 500 2 1 rfl rfl (fun _ => rfl) (fun _ => rfl)
    (by decide) (by decide) (by decide)
  have h2 := retry_loop_exhausts_budget_on_retryable_status
    (Request.mk' 30 3 2) "https://example.com/page"
    (fun i => .resp ⟨500, i⟩) 10 (fun _ => 5) (fun _ => (0, 0))
    (fun i => ⟨500, i⟩) 500 3 2 rfl rfl (fun _ => rfl) (fun _ => rfl)
    (by decide) (by decide) (by decide)
  exact ⟨h1.1, h1.2.1.trans (by decide), h1.2.2.1, h1.2.2.2.2,
    h2.2.1.trans (by decide)⟩

/-- Claim C4: a first attempt answered with a status in {401, 403, 404}
terminates the call after exactly one transport attempt with no sleep,
returns that very response (not `None`), and journals a BadStatus entry
for the URL — for every retry budget. -/
theorem no_retry_status_single_attempt
    (r : Request) (url : String) (transport : Nat → Outcome) (t0 : Nat)
    (elapsed : Nat → ℚ) (rands : Nat → Nat × Nat) (resp : HResponse)
    (h0 : transport 0 = .resp resp)
    (hmem : resp.status ∈ NO_RETRY_STATUSES)
    (hfresh : keyMem r.exception_descriptor.errors (t0 + 1) = false) :
    (r.make_request url transport t0 elapsed rands).result = some resp
    ∧ (r.make_request url transport t0 elapsed rands).calls = 1
    ∧ (r.make_request url transport t0 elapsed rands).sleeps = []
    ∧ (r.make_request url transport t0 elapsed
        rands).req.exception_descriptor.get_last_error
        = some ⟨.badStatus, "HTTP " ++ toString resp.status, url⟩ := by
  have h2xx : ¬ (200 ≤ resp.status ∧ resp.status < 300) := by
    simp only [NO_RETRY_STATUSES, List.mem_cons, List.mem_singleton,
      List.not_mem_nil, or_false] at hmem
    rcases hmem with h | h | h <;> omega
  unfold Request.make_request
  rw [Request.requestLoop_succ_resp _ _ _ _ _ _ _ _ _ _ _ h0]
  dsimp only
  rw [if_neg h2xx, if_pos hmem]
  refine ⟨rfl, rfl, rfl, ?_⟩
  dsimp only
  rw [Request.recError_journal, Request.noteResponse_journal]
  exact ExceptionDescriptor.get_last_error_add_fresh _ _ _ _ _ hfresh

/-- Witness for C4: with a budget of 5 retries and a transport answering
403, the call ends after one attempt returning the 403 response and
journals "HTTP 403". -/
theorem no_retry_status_witness :
    ((Request.mk' 30 5 2).make_request "https://example.com/x"
        (fun i => .resp ⟨403, i⟩) 10 (fun _ => 5) (fun _ => (0, 0))).result
        = some ⟨403, 0⟩
    ∧ ((Request.mk' 30 5 2).make_request "https://example.com/x"
        (fun i => .resp ⟨403, i⟩) 10 (fun _ => 5) (fun _ => (0, 0))).calls = 1
    ∧ ((Request.mk' 30 5 2).make_request "https://example.com/x"
        (fun i => .resp ⟨403, i⟩) 10 (fun _ => 5) (fun _ => (0, 0))).sleeps = []
    ∧ ((Request.mk' 30 5 2).make_request "https://example.com/x"
        (fun i => .resp ⟨403, i⟩) 10 (fun _ => 5)
        (fun _ => (0, 0))).req.exception_descriptor.get_last_error
        = some ⟨.badStatus, "HTTP 403", "https://example.com/x"⟩ := by
  have h := no_retry_status_single_attempt (Request.mk' 30 5 2)
    "https://example.com/x" (fun i => .resp ⟨403, i⟩) 10 (fun _ => 5)
    (fun _ => (0, 0)) ⟨403, 0⟩ rfl (by decide) rfl
  exact ⟨h.1, h.2.1, h.2.2.1, h.2.2.2.trans (by decide)⟩

/-- Counterexample to claim C7 as stated: the code rounds the selected
element, so for the one-element sample list `[1.4]` (= 7/5) the returned
median is the integer 1, not the element `1.4` that the claim requires. -/
theorem percentile_not_raw_element :
    RequestMetrics.percentile [(7 : ℚ)/5] (50/100) = 1
    ∧ RequestMetrics.specPercentileElt [(7 : ℚ)/5] (50/100) = 7/5
    ∧ ¬ ((1 : ℚ) = 7/5) := by
  refine ⟨by decide, by decide, by decide⟩

set_option maxRecDepth 100000 in
/-- Claim C7 (amended): for every non-empty sample list and nonnegative
fraction, the percentile equals the element at index `floor(len * pct)`
of the ascending sort, clamped to `len - 1`, rounded to the nearest
integer (ties to even); in particular recording the 100 latencies
`1..100` on one domain yields aggregate timing `p50 = 51`, `p95 = 96`,
`p99 = 100`. -/
theorem percentile_rounds_selected_element :
    (∀ (data : List ℚ) (pct : ℚ), data ≠ [] → 0 ≤ pct →
      RequestMetrics.percentile data pct
        = pyRound (RequestMetrics.specPercentileElt data pct))
    ∧ (RequestMetrics.applyRecords (RequestMetrics.init 3 2)
        calls100).statsTiming.p50_ms = 51
    ∧ (RequestMetrics.applyRecords (RequestMetrics.init 3 2)
        calls100).statsTiming.p95_ms = 96
    ∧ (RequestMetrics.applyRecords (RequestMetrics.init 3 2)
        calls100).statsTiming.p99_ms = 100 := by
  refine ⟨?_, by decide, by decide, by decide⟩
  intro data pct hne hpct
  simp only [RequestMetrics.percentile, RequestMetrics.specPercentileElt,
    pyInt, if_neg hne]
  rw [if_pos (mul_nonneg (by positivity) hpct)]

/-- Witness for C7 (amended) at the sample list `[3, 1, 2]`: the median
equals the rounded selected element, concretely 2. -/
theorem percentile_rounds_witness :
    RequestMetrics.percentile [(3 : ℚ), 1, 2] (50/100)
      = pyRound (RequestMetrics.specPercentileElt [(3 : ℚ), 1, 2] (50/100))
    ∧ RequestMetrics.percentile [(3 : ℚ), 1, 2] (50/100) = 2 :=
  ⟨percentile_rounds_selected_element.1 [(3 : ℚ), 1, 2] (50/100)
    (by decide) (by decide), by decide⟩

/-- Claim C8: `should_abort` returns false exactly when `has_errors` is
false; when errors exist it always returns true, and the branch taken
follows the order: proxy block/proxy error (only with the proxy active),
then timeout, then server down, then the logging fallback. -/
theorem should_abort_iff_has_errors (r : Request) (proxy_on : Bool) :
    ((r.should_abort proxy_on).1 = false ↔ r.has_errors = false)
    ∧ (r.has_errors = true →
        (r.should_abort proxy_on).1 = true
        ∧ (r.should_abort proxy_on).2
            = (if proxy_on ∧ (r.is_blocked ∨ r.is_proxy_error) then
                 Request.AbortReason.proxyBlockedOrDown
               else if r.is_timeout then Request.AbortReason.pageTimeout
               else if r.is_server_down then Request.AbortReason.serverDown
               else Request.AbortReason.fallbackLastError)) := by
  have hfst : (r.should_abort proxy_on).1 = r.has_errors := by
    unfold Request.should_abort
    cases hE : r.has_errors with
    | false => simp [hE]
    | true =>
        rw [if_neg (by simp)]
        split_ifs <;> rfl
  refine ⟨by rw [hfst], ?_⟩
  intro h
  refine ⟨by rw [hfst, h], ?_⟩
  unfold Request.should_abort
  rw [if_neg (by simp [h])]
  split_ifs <;> rfl

/-- Witness for C8: a client whose journal holds a post-call 5xx entry
aborts through the server-down branch; a fresh client does not abort. -/
theorem should_abort_witness :
    (serverDownClient.should_abort false).1 = true
    ∧ (serverDownClient.should_abort false).2
        = Request.AbortReason.serverDown
    ∧ ((Request.mk'.should_abort false).1 = false ↔
        Request.mk'.has_errors = false) := by
  have h := should_abort_iff_has_errors serverDownClient false
  have h2 := (h.2 (by decide))
  exact ⟨h2.1, h2.2.trans (by decide),
    (should_abort_iff_has_errors Request.mk' false).1⟩

/-- Claim C9: `soap_call` raises to the caller exactly when the callable
raised a SOAP `Fault` and `raise_faults` is set; every other error case
is absorbed — the classified journal entry is recorded (`Request` kind
for faults, `Proxy` for transport errors, `Timeout`/`Other` for the
rest) and `None` is returned instead of raising. -/
theorem soap_call_fault_propagation (r : Request) (rf : Bool)
    (outcome : Request.SoapOutcome) (t0 : Nat) (el : ℚ) (ed ep : Nat)
    (hfresh : keyMem r.exception_descriptor.errors (t0 + 1) = false) :
    ((∃ e, (r.soap_call rf outcome t0 el ed ep).result = .error e)
       ↔ (rf = true ∧ ∃ msg, outcome = .fault msg))
    ∧ (∀ msg, outcome = .fault msg → rf = false →
        (r.soap_call rf outcome t0 el ed ep).result = .ok none
        ∧ (r.soap_call rf outcome t0 el ed
            ep).req.exception_descriptor.get_last_error
            = some ⟨.request, "SOAP Fault: " ++ msg, "soap"⟩)
    ∧ (∀ msg, outcome = .transportFault msg →
        (r.soap_call rf outcome t0 el ed ep).result = .ok none
        ∧ (r.soap_call rf outcome t0 el ed
            ep).req.exception_descriptor.get_last_error
            = some ⟨.proxy, "SOAP TransportError: " ++ msg, "soap"⟩)
    ∧ (∀ msg, outcome = .exc msg →
        (r.soap_call rf outcome t0 el ed ep).result = .ok none
        ∧ (r.soap_call rf outcome t0 el ed
            ep).req.exception_descriptor.get_last_error
            = some ⟨(if strContains (strLower msg) "timeout"
                     then ErrKind.timeout else ErrKind.other), msg,
                    "soap"⟩) := by
  have hjournal : ∀ (k : ErrKind) (msg : String)
      (f : RequestMetrics → RequestMetrics),
      ((({ r with last_request_time := some t0 } : Request).recError (t0 + 1)
          k msg "soap").withMetrics f).exception_descriptor.get_last_error
        = some ⟨k, msg, "soap"⟩ := by
    intro k msg f
    rw [Request.withMetrics_journal, Request.recError_journal]
    exact ExceptionDescriptor.get_last_error_add_fresh _ _ _ _ _ hfresh
  cases outcome with
  | ok v =>
      refine ⟨?_, ?_, ?_, ?_⟩
      · simp [Request.soap_call]
      · intro msg hmsg
        exact absurd hmsg (by simp)
      · intro msg hmsg
        exact absurd hmsg (by simp)
      · intro msg hmsg
        exact absurd hmsg (by simp)
  | fault m =>
      refine ⟨?_, ?_, ?_, ?_⟩
      · cases rf with
        | false => simp [Request.soap_call]
        | true => simp [Request.soap_call]
      · intro msg hmsg hrf
        cases hmsg
        subst hrf
        exact ⟨rfl, hjournal _ _ _⟩
      · intro msg hmsg
        exact absurd hmsg (by simp)
      · intro msg hmsg
        exact absurd hmsg (by simp)
  | transportFault m =>
      refine ⟨?_, ?_, ?_, ?_⟩
      · simp [Request.soap_call]
      · intro msg hmsg
        exact absurd hmsg (by simp)
      · intro msg hmsg
        cases hmsg
        exact ⟨rfl, hjournal _ _ _⟩
      · intro msg hmsg
        exact absurd hmsg (by simp)
  | exc m =>
      refine ⟨?_, ?_, ?_, ?_⟩
      · simp [Request.soap_call]
      · intro msg hmsg
        exact absurd hmsg (by simp)
      · intro msg hmsg
        exact absurd hmsg (by simp)
      · intro msg hmsg
        cases hmsg
        constructor
        · rfl
        · unfold Request.soap_call
          dsimp only
          split <;> exact hjournal _ _ _

/-- Witness for C9: a fault with `raise_faults=True` surfaces; with
`raise_faults=False` it is absorbed into a Request-kind entry with
`None` returned; a generic "Read timeout" error is absorbed as Timeout. -/
theorem soap_call_witness :
    (∃ e, (Request.mk'.soap_call true (.fault "boom") 5 10 0 0).result
        = .error e)
    ∧ (Request.mk'.soap_call false (.fault "boom") 5 10 0 0).result
        = .ok none
    ∧ (Request.mk'.soap_call false (.fault "boom") 5 10 0
        0).req.exception_descriptor.get_last_error
        = some ⟨.request, "SOAP Fault: boom", "soap"⟩
    ∧ (Request.mk'.soap_call false (.exc "Read timeout") 5 10 0
        0).req.exception_descriptor.get_last_error
        = some ⟨.timeout, "Read timeout", "soap"⟩ := by
  have hT := soap_call_fault_propagation Request.mk' true (.fault "boom")
    5 10 0 0 rfl
  have hF := soap_call_fault_propagation Request.mk' false (.fault "boom")
    5 10 0 0 rfl
  have hX := soap_call_fault_propagation Request.mk' false
    (.exc "Read timeout") 5 10 0 0 rfl
  exact ⟨hT.1.mpr ⟨rfl, "boom", rfl⟩, (hF.2.1 "boom" rfl rfl).1,
    (hF.2.1 "boom" rfl rfl).2.trans (by decide),
    (hX.2.2.2 "Read timeout" rfl).2.trans (by decide)⟩

/-- Claim C10: `has_errors` is false whenever no request was ever issued
(no last-request timestamp), even with a non-empty journal; and with an
empty journal `get_last_error` is `none` while `is_blocked`,
`is_proxy_error`, `is_timeout` and `is_server_down` are all false. -/
theorem introspection_empty_defaults :
    (∀ r : Request, r.last_request_time = none → r.has_errors = false)
    ∧ (∀ ed : ExceptionDescriptor, ed.errors = [] →
        ed.get_last_error = none)
    ∧ (∀ r : Request, r.exception_descriptor.errors = [] →
        r.is_blocked = false ∧ r.is_proxy_error = false
          ∧ r.is_timeout = false ∧ r.is_server_down = false) := by
  refine ⟨?_, ?_, ?_⟩
  · intro r h
    simp [Request.has_errors, h]
  · intro ed h
    simp [ExceptionDescriptor.get_last_error, h]
  · intro r h
    have hl : r.exception_descriptor.get_last_error = none := by
      simp [ExceptionDescriptor.get_last_error, h]
    simp [Request.is_blocked, Request.is_proxy_error, Request.is_timeout,
      Request.is_server_down, hl]

/-- Witness for C10: a client with a journal entry but no last-request
timestamp reports no errors; a fresh client's predicates are all false. -/
theorem introspection_empty_witness :
    neverCalledClient.has_errors = false
    ∧ (ExceptionDescriptor.mk []).get_last_error = none
    ∧ Request.mk'.is_blocked = false
    ∧ Request.mk'.is_proxy_error = false
    ∧ Request.mk'.is_timeout = false
    ∧ Request.mk'.is_server_down = false :=
  ⟨introspection_empty_defaults.1 neverCalledClient rfl,
   introspection_empty_defaults.2.1 ⟨[]⟩ rfl,
   (introspection_empty_defaults.2.2 Request.mk' rfl).1,
   (introspection_empty_defaults.2.2 Request.mk' rfl).2.1,
   (introspection_empty_defaults.2.2 Request.mk' rfl).2.2.1,
   (introspection_empty_defaults.2.2 Request.mk' rfl).2.2.2⟩

end DataCollector
